import Mathlib

/-!
Verification of the VibeCheck MCP server (scoring + context-ranking pipeline).

The development shallowly embeds the repository's TypeScript sources:
* `src/security.ts` — the security-pattern guardrail (`securityCheck`);
* `src/personas.ts` — the persona registry (`getPersonas`, `resolvePersona`);
* `src/scanner.ts` — keyword extraction, file ranking (`suggestContext`),
  word-boundary library mention detection (`extractMentionedLibraries`),
  the bounded directory walk (`scanProjectFiles`);
* the history module — the rotating history store (`logHistory`);
* `src/scoring.ts` — the four-dimensional scorer (`scoreVibe`);
* `src/index.ts` (v1.4.0 snapshot) — the MCP tool handlers
  (`refine_vibe_prompt`, `score_vibe`, `refinement_loop`) and their
  non-rotating `logHistory`.

JavaScript strings are modelled as Lean `String` / `List Char`; the regular
expressions appearing in the sources are compiled by hand into executable
`Bool`-valued scanners over `List Char` (each scanner is documented with the
regex it implements).  Filesystem access is modelled by explicit parameters:
the awaited result of a directory scan is an `Except Unit (List String)`
(`.error` standing for a thrown error that the source catches), the tech-stack
probe result is an `Option TechStack`, and the config loaded from disk is a
`VibeCheckConfig` value.  Stateful history I/O is modelled as explicit state
passing on the persisted JSON array (`List HistoryEntry`).
-/

namespace VC

/-! ## Character classes and scanners for the sources' regexes -/

/-- JavaScript's `\s` character class (ASCII part plus the Unicode space
separators that V8 includes). -/
def jsSpace (c : Char) : Bool :=
  c = ' ' || c = '\t' || c = '\n' || c = '\r' ||
  c.toNat = 0x0b || c.toNat = 0x0c || c.toNat = 0xa0 || c.toNat = 0x1680 ||
  (0x2000 ≤ c.toNat && c.toNat ≤ 0x200a) ||
  c.toNat = 0x2028 || c.toNat = 0x2029 || c.toNat = 0x202f ||
  c.toNat = 0x205f || c.toNat = 0x3000 || c.toNat = 0xfeff

/-- The characters that JavaScript's `.` (without the `s` flag) does NOT match. -/
def jsNewline (c : Char) : Bool :=
  c = '\n' || c = '\r' || c.toNat = 0x2028 || c.toNat = 0x2029

def jsDigit (c : Char) : Bool := '0' ≤ c && c ≤ '9'

/-- Lower-case a JavaScript string (ASCII case mapping, as all catalog
literals in the sources are ASCII). -/
def lowerL (s : String) : List Char := s.toList.map Char.toLower

/-- `s.toLowerCase()` as a `String`. -/
def toLowerStr (s : String) : String := String.mk (lowerL s)

/-- `k` continues matching after zero or more `\s` characters (regex `\s*`). -/
def spaces0Then (k : List Char → Bool) : List Char → Bool
  | [] => k []
  | c :: rest => k (c :: rest) || (jsSpace c && spaces0Then k rest)

/-- `k` continues matching after one or more `\s` characters (regex `\s+`). -/
def spaces1Then (k : List Char → Bool) : List Char → Bool
  | [] => false
  | c :: rest => jsSpace c && spaces0Then k rest

/-- `k` continues matching after any run of non-newline characters
(regex `.*` without the `s` flag). -/
def dotStarThen (k : List Char → Bool) : List Char → Bool
  | [] => k []
  | c :: rest => k (c :: rest) || (!jsNewline c && dotStarThen k rest)

/-- One or more digits (regex `\d+`), then anything. -/
def digits1 : List Char → Bool
  | [] => false
  | c :: _ => jsDigit c

/-- Does `f` hold on some suffix of the list?  This is how `RegExp.test`
searches for a match at every position. -/
def anySuffix (f : List Char → Bool) : List Char → Bool
  | [] => f []
  | c :: rest => f (c :: rest) || anySuffix f rest

/-- The literal `pat` starts at the head of `l`. -/
def litAt (pat : String) (l : List Char) : Bool := pat.toList.isPrefixOf l

/-- Substring containment, i.e. JavaScript `l.includes(pat)` and an unanchored
regex literal. -/
def containsSub (pat : String) (l : List Char) : Bool :=
  anySuffix (litAt pat) l

/-- Continue with `k` after the literal `pat` (sequencing inside a regex). -/
def litThen (pat : String) (k : List Char → Bool) (l : List Char) : Bool :=
  litAt pat l && k (l.drop pat.length)

/-! ## `src/security.ts` — Security Guardrails -/

/-- One catalog entry of `SECURITY_PATTERNS`: a pattern (compiled to an
executable test) and its flag label. -/
structure SecurityRule where
  test : String → Bool
  flag : String

/-- Regex `/disable\s*(auth|authentication|authorization)/i`. -/
def pat1Test (prompt : String) : Bool :=
  anySuffix (litThen "disable" (spaces0Then fun l =>
    litAt "auth" l || litAt "authentication" l || litAt "authorization" l)) (lowerL prompt)

/-- Regex `/bypass\s*(auth|security|login|password|verification)/i`. -/
def pat2Test (prompt : String) : Bool :=
  anySuffix (litThen "bypass" (spaces0Then fun l =>
    litAt "auth" l || litAt "security" l || litAt "login" l ||
    litAt "password" l || litAt "verification" l)) (lowerL prompt)

/-- Regex `/skip\s*(validation|sanitiz|check|verify)/i`. -/
def pat3Test (prompt : String) : Bool :=
  anySuffix (litThen "skip" (spaces0Then fun l =>
    litAt "validation" l || litAt "sanitiz" l || litAt "check" l ||
    litAt "verify" l)) (lowerL prompt)

/-- Regex `/hardcode\s*(password|secret|key|token|credential)/i`. -/
def pat4Test (prompt : String) : Bool :=
  anySuffix (litThen "hardcode" (spaces0Then fun l =>
    litAt "password" l || litAt "secret" l || litAt "key" l ||
    litAt "token" l || litAt "credential" l)) (lowerL prompt)

/-- Regex `/remove\s*(csrf|cors|rate.?limit|firewall)/i`; `rate.?limit` is
`rate`, an optional non-newline character, then `limit`. -/
def pat5Test (prompt : String) : Bool :=
  anySuffix (litThen "remove" (spaces0Then fun l =>
    litAt "csrf" l || litAt "cors" l ||
    (litAt "rate" l && (litAt "limit" (l.drop 4) ||
      (match l.drop 4 with
       | c :: rest => !jsNewline c && litAt "limit" rest
       | [] => false))) ||
    litAt "firewall" l)) (lowerL prompt)

/-- Regex for the dangerous-execution rule: three alternatives, each a word,
`\s*`, then a literal `(`. -/
def pat6Test (prompt : String) : Bool :=
  anySuffix (fun l =>
    litThen "eval" (spaces0Then (litAt "(")) l ||
    litThen "exec" (spaces0Then (litAt "(")) l ||
    litThen "system" (spaces0Then (litAt "(")) l) (lowerL prompt)

/-- Regex `/sudo|chmod\s+777|--no-verify/i`. -/
def pat7Test (prompt : String) : Bool :=
  anySuffix (fun l =>
    litAt "sudo" l ||
    litThen "chmod" (spaces1Then (litAt "777")) l ||
    litAt "--no-verify" l) (lowerL prompt)

/-- Regex `/DROP\s+TABLE|DELETE\s+FROM.*WHERE\s+1/i`. -/
def pat8Test (prompt : String) : Bool :=
  anySuffix (fun l =>
    litThen "drop" (spaces1Then (litAt "table")) l ||
    litThen "delete" (spaces1Then (litThen "from" (dotStarThen
      (litThen "where" (spaces1Then (litAt "1")))))) l) (lowerL prompt)

/-- The fixed ordered catalog `SECURITY_PATTERNS` of `src/security.ts`. -/
def SECURITY_PATTERNS : List SecurityRule :=
  [ ⟨pat1Test, "🚨 Attempts to disable authentication/authorization"⟩,
    ⟨pat2Test, "🚨 Attempts to bypass security mechanisms"⟩,
    ⟨pat3Test, "🚨 Attempts to skip input validation"⟩,
    ⟨pat4Test, "🚨 Attempts to hardcode secrets"⟩,
    ⟨pat5Test, "🚨 Attempts to remove security protections"⟩,
    ⟨pat6Test, "⚠️ References dangerous code execution functions"⟩,
    ⟨pat7Test, "⚠️ Uses elevated privileges or bypasses verification"⟩,
    ⟨pat8Test, "🚨 Destructive database operations detected"⟩ ]

/-- `securityCheck` of `src/security.ts`: filter the catalog by pattern match
and return the flags in catalog order.  Pure function of the input text. -/
def securityCheck (prompt : String) : List String :=
  (SECURITY_PATTERNS.filter (fun r => r.test prompt)).map (·.flag)

/-! ## `src/personas.ts` — Personas -/

/-- The `Persona` interface. -/
structure Persona where
  name : String
  emoji : String
  description : String
  expertConstraints : List String
deriving DecidableEq

/-- The five entries of `BUILTIN_PERSONAS`, in declaration order.
(String apostrophes are written as the escape `\x27`.) -/
def personaDefault : Persona :=
  { name := "Default", emoji := "🧑‍💻",
    description := "A well-rounded software engineer focused on clean, maintainable code.",
    expertConstraints :=
      [ "Follow SOLID principles and clean architecture patterns.",
        "Write self-documenting code with meaningful variable names.",
        "Include error handling for all edge cases.",
        "Ensure backward compatibility unless explicitly breaking." ] }

def personaSeniorEngineer : Persona :=
  { name := "Senior Engineer", emoji := "🏗️",
    description := "Battle-tested architect who prioritizes scalability and maintainability.",
    expertConstraints :=
      [ "Design for horizontal scalability from day one.",
        "Consider failure modes: what happens when this service goes down?",
        "Add comprehensive logging and observability hooks.",
        "Write code that a junior dev can understand and maintain.",
        "Consider database migration strategies for schema changes.",
        "Always think about race conditions and concurrent access." ] }

def personaProductManager : Persona :=
  { name := "Product Manager", emoji := "📊",
    description := "User-focused strategist who thinks in terms of impact and deliverables.",
    expertConstraints :=
      [ "Prioritize user-facing features over internal refactoring.",
        "Consider accessibility (WCAG 2.1 AA) in all UI changes.",
        "Include analytics hooks for measuring feature adoption.",
        "Define clear success metrics for this change.",
        "Think about the onboarding experience for new users.",
        "Consider internationalization requirements." ] }

def personaSecurityAuditor : Persona :=
  { name := "Security Auditor", emoji := "🛡️",
    description := "Threat-aware specialist who finds vulnerabilities before attackers do.",
    expertConstraints :=
      [ "Validate and sanitize ALL user inputs — never trust client data.",
        "Check for SQL injection, XSS, and CSRF vulnerabilities.",
        "Ensure secrets are never hardcoded or logged.",
        "Implement proper authentication and authorization checks.",
        "Use parameterized queries for all database operations.",
        "Apply the principle of least privilege to all access controls.",
        "Review for path traversal and file inclusion attacks.",
        "Ensure proper CORS configuration." ] }

def personaPerformanceSpecialist : Persona :=
  { name := "Performance Specialist", emoji := "⚡",
    description := "Optimization expert who squeezes every millisecond out of the system.",
    expertConstraints :=
      [ "Profile before optimizing — measure, don\x27t guess.",
        "Consider memory allocation patterns and garbage collection impact.",
        "Use lazy loading and code splitting for frontend assets.",
        "Implement caching strategies (CDN, in-memory, database query cache).",
        "Minimize database round-trips with batch operations.",
        "Consider connection pooling and resource limits.",
        "Optimize critical rendering path for web applications.",
        "Use streaming for large data sets instead of buffering." ] }

/-- `BUILTIN_PERSONAS`, a `Record<string, Persona>` modelled as an
association list in property-insertion order. -/
def BUILTIN_PERSONAS : List (String × Persona) :=
  [ ("default", personaDefault),
    ("senior engineer", personaSeniorEngineer),
    ("product manager", personaProductManager),
    ("security auditor", personaSecurityAuditor),
    ("performance specialist", personaPerformanceSpecialist) ]

/-- `.vibecheckrc` configuration (`VibeCheckConfig` of `src/config.ts`); every
field is optional, `none` standing for an absent (`undefined`) key.
`customPersonas` is a record modelled as an association list. -/
structure VibeCheckConfig where
  ignoredDirs : Option (List String) := none
  ignoredExtensions : Option (List String) := none
  customPersonas : Option (List (String × Persona)) := none
  maxScanFiles : Option Nat := none
  maxScanDepth : Option Nat := none

/-- JavaScript record assignment `m[k] = v`: replace the value if the key is
present, otherwise append the new property. -/
def recordSet (m : List (String × Persona)) (k : String) (v : Persona) :
    List (String × Persona) :=
  if m.any (fun e => e.1 = k) then
    m.map (fun e => if e.1 = k then (k, v) else e)
  else m ++ [(k, v)]

/-- `getPersonas` of `src/personas.ts`: spread the built-in table, then assign
each custom persona under its lower-cased key. -/
def getPersonas (config : VibeCheckConfig) : List (String × Persona) :=
  match config.customPersonas with
  | some custom => custom.foldl (fun m kv => recordSet m (toLowerStr kv.1) kv.2) BUILTIN_PERSONAS
  | none => BUILTIN_PERSONAS

/-- The key actually looked up by `resolvePersona`:
`personaKey?.toLowerCase() || "default"` — an absent key, and the falsy
lower-cased empty string, both yield `"default"`. -/
def effectiveKey (personaKey : Option String) : String :=
  match personaKey with
  | none => "default"
  | some s => if toLowerStr s = "" then "default" else toLowerStr s

/-- Record read `personas[k]`: `undefined` is `none`.  `List.lookup` finds the
first binding, and `recordSet` keeps keys unique, matching object semantics. -/
def recordGet (m : List (String × Persona)) (k : String) : Option Persona :=
  m.lookup k

/-- `resolvePersona` of `src/personas.ts`:
`personas[personaKey?.toLowerCase() || "default"] || personas["default"]`.
The result is `Option Persona` so that the JavaScript `undefined` case is
represented faithfully; `resolvePersona_isSome` below shows it never occurs. -/
def resolvePersona (config : VibeCheckConfig) (personaKey : Option String) :
    Option Persona :=
  match recordGet (getPersonas config) (effectiveKey personaKey) with
  | some p => some p
  | none => recordGet (getPersonas config) "default"

/-- Total version of `resolvePersona` used by the scorer (the fallback is
unreachable by `resolvePersona_isSome`, mirroring the non-optional `Persona`
return type in the source). -/
def resolvePersona' (config : VibeCheckConfig) (personaKey : Option String) :
    Persona :=
  (resolvePersona config personaKey).getD personaDefault

/-! ## `src/scanner.ts` — Context Suggestion (keyword extraction + ranking) -/

/-- The `STOP_WORDS` set of `src/scanner.ts`. -/
def STOP_WORDS : List String :=
  [ "the", "and", "for", "that", "this", "with", "from", "are", "was",
    "will", "can", "has", "have", "not", "but", "all", "they", "been",
    "its", "into", "also", "than", "just", "how", "add", "fix", "make",
    "use", "get", "set", "new", "want", "need", "like", "some" ]

/-- The replacement `.replace(/[^a-z0-9\s_-]/g, " ")` applied to the
lower-cased query: any character outside the class becomes a space. -/
def normChar (c : Char) : Char :=
  if ('a' ≤ c && c ≤ 'z') || ('0' ≤ c && c ≤ '9') || jsSpace c ||
     c = '_' || c = '-' then c else ' '

/-- Split on whitespace runs (`.split(/\s+/)`), returning the non-empty
tokens.  (The empty token that JavaScript's `split` emits for leading
whitespace has length 0 and is removed by the `length >= 3` filter anyway.) -/
def splitWsAux (cur : List Char) : List Char → List (List Char)
  | [] => if cur.isEmpty then [] else [cur.reverse]
  | c :: rest =>
    if jsSpace c then
      if cur.isEmpty then splitWsAux [] rest
      else cur.reverse :: splitWsAux [] rest
    else splitWsAux (c :: cur) rest

/-- `[...new Set(xs)]`: deduplicate keeping first occurrences in order. -/
def dedupFirstAux (seen : List (List Char)) : List (List Char) → List (List Char)
  | [] => []
  | x :: xs =>
    if seen.contains x then dedupFirstAux seen xs
    else x :: dedupFirstAux (x :: seen) xs

/-- The keyword extraction of `suggestContext`: lower-case, strip characters
outside `[a-z0-9\s_-]`, split on whitespace, keep tokens of length ≥ 3 that
are not stop words, deduplicate keeping first occurrences. -/
def extractKeywords (query : String) : List (List Char) :=
  dedupFirstAux []
    ((splitWsAux [] ((lowerL query).map normChar)).filter
      (fun w => 3 ≤ w.length && !(STOP_WORDS.contains (String.mk w))))

/-- `path.basename(fp)`: the part after the last `/` (the scanner produces
`/`-separated relative paths without trailing separators). -/
def basenameL (fp : String) : List Char :=
  fp.toList.foldl (fun acc c => if c = '/' then [] else acc ++ [c]) []

/-- `path.basename(fp).toLowerCase()` as used in the ranking loop. -/
def lowerBasename (fp : String) : List Char := (basenameL fp).map Char.toLower

/-- The per-file score loop of `suggestContext`: for each keyword, `+3` when
the keyword is a substring of the lower-cased basename, else `+1` when it is
a substring of the lower-cased full path, else `+0`. -/
def fileScore (keywords : List (List Char)) (fp : String) : Nat :=
  keywords.foldl
    (fun score k =>
      if containsSub (String.mk k) (lowerBasename fp) then score + 3
      else if containsSub (String.mk k) (lowerL fp) then score + 1
      else score) 0

/-- The `.map` step: each candidate paired with its score
(`{ filePath, score }`). -/
def scoredPairs (query : String) (projectFiles : List String) :
    List (String × Nat) :=
  projectFiles.map (fun fp => (fp, fileScore (extractKeywords query) fp))

/-- The comparator `(a, b) => b.score - a.score`: `a` may precede `b` exactly
when `b.score ≤ a.score` (descending order). -/
def sortLe (a b : String × Nat) : Prop := b.2 ≤ a.2

instance : DecidableRel sortLe := fun a b => Nat.decLe b.2 a.2

instance : IsTotal (String × Nat) sortLe := ⟨fun a b => Nat.le_total b.2 a.2⟩

instance : IsTrans (String × Nat) sortLe :=
  ⟨fun _ _ _ h₁ h₂ => Nat.le_trans h₂ h₁⟩

/-- `.filter((i) => i.score > 0).sort((a, b) => b.score - a.score)` — the
JavaScript sort is stable (required since ES2019), and the output of a stable
sort is uniquely determined by the comparator, so it is modelled by the
stable `List.insertionSort` with the descending-score relation. -/
def rankedPairs (query : String) (projectFiles : List String) :
    List (String × Nat) :=
  ((scoredPairs query projectFiles).filter (fun i => 0 < i.2)).insertionSort sortLe

/-- Result shape of `suggestContext`. -/
structure SuggestResult where
  matched : List String
  keywords : List String

/-- `suggestContext` of `src/scanner.ts`: extract keywords, score candidates,
drop zero scores, stable-sort by descending score, truncate to 15, and return
the file paths together with the keywords used. -/
def suggestContext (query : String) (projectFiles : List String) :
    SuggestResult :=
  { matched := ((rankedPairs query projectFiles).take 15).map (·.1),
    keywords := (extractKeywords query).map String.mk }

/-! ## `src/scanner.ts` — Dependency mention check -/

/-- The `known` library-name list of `extractMentionedLibraries`
(`src/scanner.ts`, word-boundary version). -/
def knownLibraries : List String :=
  [ "react", "vue", "angular", "svelte", "next.js", "nextjs", "nuxt", "express",
    "fastify", "nestjs", "electron", "typescript", "zod", "prisma",
    "drizzle", "tailwind", "tailwindcss", "sass", "webpack", "vite",
    "rollup", "jest", "vitest", "mocha", "cypress", "playwright",
    "django", "flask", "fastapi", "pytorch", "tensorflow", "pandas",
    "numpy", "redis", "mongodb", "postgres", "mysql", "sqlite",
    "docker", "kubernetes", "graphql", "apollo", "trpc" ]

/-- The left word-boundary class `[\s,;:'"\(\[/]` of the mention regex. -/
def leftDelim (c : Char) : Bool :=
  jsSpace c || c = ',' || c = ';' || c = ':' || c = Char.ofNat 39 ||
  c = '"' || c = '(' || c = '[' || c = '/'

/-- The right word-boundary class `[\s,;:'"\)\]/\.]` of the mention regex. -/
def rightDelim (c : Char) : Bool :=
  jsSpace c || c = ',' || c = ';' || c = ':' || c = Char.ofNat 39 ||
  c = '"' || c = ')' || c = ']' || c = '/' || c = '.'

/-- The tail part `(?:$|[...])` of the mention regex: end of string or a
right-delimiter character. -/
def endOk : List Char → Bool
  | [] => true
  | c :: _ => rightDelim c

/-- Matches of the library name at a position preceded by a left delimiter
(the `[\s,;:'"\(\[/]lib(?:$|[...])` alternative, tried at every suffix). -/
def boundaryAux (lib : String) : List Char → Bool
  | [] => false
  | c :: rest =>
    (leftDelim c && lib.toList.isPrefixOf rest && endOk (rest.drop lib.length)) ||
    boundaryAux lib rest

/-- The whole regex
`(?:^|[\s,;:'"\(\[/])lib(?:$|[\s,;:'"\)\]/\.])` applied to the lower-cased
prompt: the name must be flanked by a delimiter or a string edge. -/
def boundaryTest (lib : String) (l : List Char) : Bool :=
  (lib.toList.isPrefixOf l && endOk (l.drop lib.length)) || boundaryAux lib l

/-- `extractMentionedLibraries` of `src/scanner.ts` (word-boundary-aware
version): keep the known names that match the boundary regex against the
lower-cased prompt. -/
def extractMentionedLibraries (prompt : String) : List String :=
  knownLibraries.filter (fun lib => boundaryTest lib (lowerL prompt))

/-! ## `src/scanner.ts` — Project Scanner

The filesystem under the (resolved) project root is modelled as a tree of
named entries; `readdir` returns a directory's children in order and, in the
model, always succeeds (a failing `readdir` is caught in the source and acts
like an empty directory, which the model can express directly as a childless
directory).  Since the walk only ever descends into children of the root, the
resolved-path containment check of the source
(`resolvedDir.startsWith(resolvedRoot)`) is always true here. -/

inductive FSEntry where
  | file (name : String)
  | dir (name : String) (children : List FSEntry)

/-- `DEFAULT_CONFIG.ignoredDirs` of `src/config.ts`. -/
def DEFAULT_IGNORED_DIRS : List String :=
  [ "node_modules", ".git", "dist", ".next", ".nuxt", ".output",
    "build", "coverage", "__pycache__", ".vscode", ".idea",
    "vendor", ".turbo", ".cache", ".vibecheck" ]

/-- `DEFAULT_CONFIG.ignoredExtensions` of `src/config.ts`. -/
def DEFAULT_IGNORED_EXTS : List String :=
  [ ".lock", ".log", ".map", ".min.js", ".min.css",
    ".ico", ".png", ".jpg", ".jpeg", ".gif", ".svg",
    ".woff", ".woff2", ".ttf", ".eot" ]

/-- `DEFAULT_CONFIG` of `src/config.ts`. -/
def DEFAULT_CONFIG : VibeCheckConfig :=
  { ignoredDirs := some DEFAULT_IGNORED_DIRS,
    ignoredExtensions := some DEFAULT_IGNORED_EXTS,
    maxScanFiles := some 500,
    maxScanDepth := some 10 }

/-- JavaScript `o || d` for an optional number: `undefined` and the falsy `0`
both fall back to the default. -/
def jsOrNat (o : Option Nat) (d : Nat) : Nat :=
  match o with
  | some n => if n = 0 then d else n
  | none => d

/-- The suffix of the name starting at its last `.`, if any. -/
def lastDotSuffix : List Char → Option (List Char)
  | [] => none
  | c :: rest =>
    match lastDotSuffix rest with
    | some s => some s
    | none => if c = '.' then some (c :: rest) else none

/-- `path.extname(name)` for a plain entry name (no separators): the suffix
from the last `.`, empty when there is no dot or when the only dot is the
leading character of a dotfile. -/
def extname (name : String) : String :=
  match lastDotSuffix name.toList with
  | some s => if s.length = name.toList.length then "" else String.mk s
  | none => ""

/-- The recursive `walk` of `scanProjectFiles`, processing a directory's
entry list while threading the accumulated `files` array.  `pref` is the
relative path of the directory being walked (`""` at the root); pushed paths
are `path.relative(resolvedRoot, path.join(dir, entry.name))` with `/`
separators.  The `walk` entry guard (`files.length >= maxFiles || depth >
maxDepth`) is applied before descending into a subdirectory, and the loop
re-checks `files.length >= maxFiles` before every entry. -/
def walkEntries (igD igE : List String) (maxFiles maxDepth : Nat) :
    List FSEntry → String → Nat → List String → List String
  | [], _, _, files => files
  | e :: rest, pref, depth, files =>
    if maxFiles ≤ files.length then files
    else
      let files' :=
        match e with
        | .dir name children =>
          if !(igD.contains name) && !(litAt "." name.toList) then
            if maxFiles ≤ files.length || maxDepth < depth + 1 then files
            else walkEntries igD igE maxFiles maxDepth children
              (pref ++ name ++ "/") (depth + 1) files
          else files
        | .file name =>
          if !(igE.contains (toLowerStr (extname name))) then files ++ [pref ++ name]
          else files
      walkEntries igD igE maxFiles maxDepth rest pref depth files'
termination_by l => sizeOf l
decreasing_by
  · simp only [FSEntry.dir.sizeOf_spec, List.cons.sizeOf_spec]; omega
  · simp only [List.cons.sizeOf_spec]; omega

/-- `scanProjectFiles` of `src/scanner.ts`: resolve the effective limits and
ignore lists (`config.x || DEFAULT_CONFIG.x`; for the arrays only
`undefined` is falsy, for the numbers `0` also is), then walk the root.
`root` is the children of the resolved project root directory. -/
def scanProjectFiles (root : List FSEntry) (config : VibeCheckConfig) :
    List String :=
  let igD := config.ignoredDirs.getD DEFAULT_IGNORED_DIRS
  let igE := config.ignoredExtensions.getD DEFAULT_IGNORED_EXTS
  let maxFiles := jsOrNat config.maxScanFiles 500
  let maxDepth := jsOrNat config.maxScanDepth 10
  if maxFiles ≤ 0 then [] else walkEntries igD igE maxFiles maxDepth root "" 0 []

/-! ## History module — rotating store

The history module (the part of the scanner source file holding
`logHistory`/`readHistory`) persists a JSON array of entries; the store state
is modelled as that array. -/

def MAX_HISTORY_ENTRIES : Nat := 200

/-- `HistoryEntry` of the history module. -/
structure HistoryEntry where
  timestamp : String
  persona : String
  rawPrompt : String
  refinedPrompt : String
  vibeScore : Nat
  securityFlags : List String
deriving DecidableEq

/-- The state transition of the rotating `logHistory`: push the entry, then
keep only the last `MAX_HISTORY_ENTRIES` entries
(`history.slice(history.length - MAX_HISTORY_ENTRIES)`). -/
def logHistory (history : List HistoryEntry) (entry : HistoryEntry) :
    List HistoryEntry :=
  let h := history ++ [entry]
  if MAX_HISTORY_ENTRIES < h.length then h.drop (h.length - MAX_HISTORY_ENTRIES)
  else h

/-! ## `src/scoring.ts` — Prompt Scoring -/

/-- The `VibeScore` interface (`breakdown` is the markdown table). -/
structure VibeScore where
  total : Nat
  specificity : Nat
  contextAvailability : Nat
  acceptanceCriteria : Nat
  personaAlignment : Nat
  breakdown : String
deriving DecidableEq

/-- JavaScript truthiness of the optional `projectRoot` string argument
(`if (projectRoot)` / `projectRoot ? _ : _`): present and non-empty. -/
def truthyRoot : Option String → Bool
  | some r => !(r = "")
  | none => false

/-- Regex `/\.(ts|js|py|go|rs|tsx|jsx|css|html)/i`. -/
def fileExtTest (prompt : String) : Bool :=
  anySuffix (litThen "." fun l =>
    litAt "ts" l || litAt "js" l || litAt "py" l || litAt "go" l ||
    litAt "rs" l || litAt "tsx" l || litAt "jsx" l || litAt "css" l ||
    litAt "html" l) (lowerL prompt)

/-- Regex `/function|class|method|component|api|endpoint/i`. -/
def codeNounTest (prompt : String) : Bool :=
  let l := lowerL prompt
  containsSub "function" l || containsSub "class" l || containsSub "method" l ||
  containsSub "component" l || containsSub "api" l || containsSub "endpoint" l

/-- Regex `/line\s*\d+|L\d+/i`. -/
def lineRefTest (prompt : String) : Bool :=
  anySuffix (fun l =>
    litThen "line" (spaces0Then digits1) l ||
    litThen "l" digits1 l) (lowerL prompt)

/-- Regex `/```[\s\S]+```/` (no `i` flag; `[\s\S]` is any character):
a fence, at least one character, then another fence. -/
def fencedCodeTest (prompt : String) : Bool :=
  anySuffix (litThen "```" fun l =>
    match l with
    | [] => false
    | _ :: rest => anySuffix (litAt "```") rest) prompt.toList

/-- Regex `/error|stack\s*trace|exception/i`. -/
def errorTest (prompt : String) : Bool :=
  anySuffix (fun l =>
    litAt "error" l ||
    litThen "stack" (spaces0Then (litAt "trace")) l ||
    litAt "exception" l) (lowerL prompt)

/-- Regex `/import|require|from\s+['"]/` — note: case-SENSITIVE (no `i`
flag), so it runs on the raw prompt. -/
def importTest (prompt : String) : Bool :=
  anySuffix (fun l =>
    litAt "import" l || litAt "require" l ||
    litThen "from" (spaces1Then fun m =>
      litAt "\x27" m || litAt "\"" m) l) prompt.toList

/-- Regex `/should|must|expect|return|output/i`. -/
def criteriaTest (prompt : String) : Bool :=
  let l := lowerL prompt
  containsSub "should" l || containsSub "must" l || containsSub "expect" l ||
  containsSub "return" l || containsSub "output" l

/-- Regex `/test|spec|assert|verify/i`. -/
def testWordTest (prompt : String) : Bool :=
  let l := lowerL prompt
  containsSub "test" l || containsSub "spec" l || containsSub "assert" l ||
  containsSub "verify" l

/-- Regex `/when.*then|given.*when/i` (`.` does not cross newlines). -/
def behaviorTest (prompt : String) : Bool :=
  anySuffix (fun l =>
    litThen "when" (dotStarThen (litAt "then")) l ||
    litThen "given" (dotStarThen (litAt "when")) l) (lowerL prompt)

/-- The raw specificity signal (before the clamp): mutually exclusive length
tiers plus the three pattern bonuses. -/
def specificityRaw (prompt : String) : Nat :=
  (if 200 < prompt.length then 10
   else if 100 < prompt.length then 5
   else if 50 < prompt.length then 2 else 0) +
  (if fileExtTest prompt then 10 else 0) +
  (if codeNounTest prompt then 5 else 0) +
  (if lineRefTest prompt then 5 else 0)

/-- The file-match tier of the context signal: only when a truthy project
root was supplied; `scan` is the awaited result of
`scanProjectFiles(projectRoot)` — `.error` is a thrown error, which the
`try`/`catch` turns into a zero contribution from this tier only. -/
def contextFileTier (projectRoot : Option String)
    (scan : Except Unit (List String)) (prompt : String) : Nat :=
  if truthyRoot projectRoot then
    match scan with
    | .ok files =>
      let matched := (suggestContext prompt files).matched
      if 5 < matched.length then 15
      else if 0 < matched.length then 10 else 0
    | .error _ => 0
  else 0

/-- The prompt-text part of the raw context signal. -/
def contextPromptRaw (prompt : String) : Nat :=
  (if fencedCodeTest prompt then 10 else 0) +
  (if errorTest prompt then 5 else 0) +
  (if importTest prompt then 5 else 0)

/-- The raw acceptance-criteria signal. -/
def acceptanceRaw (prompt : String) : Nat :=
  (if criteriaTest prompt then 8 else 0) +
  (if testWordTest prompt then 7 else 0) +
  (if behaviorTest prompt then 5 else 0)

/-- One constraint hits when at least one of its words of length > 4
(lower-cased, split on whitespace) occurs in the lower-cased prompt. -/
def constraintHit (promptLower : List Char) (c : String) : Bool :=
  ((splitWsAux [] (lowerL c)).filter (fun w => 4 < w.length)).any
    (fun w => containsSub (String.mk w) promptLower)

/-- The raw persona-alignment signal: a flat `+3` per hitting constraint. -/
def alignmentRaw (persona : Persona) (prompt : String) : Nat :=
  persona.expertConstraints.foldl
    (fun acc c => if constraintHit (lowerL prompt) c then acc + 3 else acc) 0

/-- The badge tiers of `scoreVibe`. -/
def badgeOf (total : Nat) : String :=
  if 80 ≤ total then "🏆 ELITE"
  else if 60 ≤ total then "✅ STRONG"
  else if 40 ≤ total then "⚡ DECENT"
  else if 20 ≤ total then "⚠️ WEAK"
  else "❌ LAZY"

/-- The markdown `breakdown` table of `scoreVibe`. -/
def breakdownOf (persona : Persona) (s c a p total : Nat) : String :=
  String.intercalate "\n"
    [ "| Category | Score | Max |",
      "|----------|-------|-----|",
      "| 🎯 Specificity | " ++ toString s ++ " | 30 |",
      "| 📂 Context | " ++ toString c ++ " | 30 |",
      "| ✅ Acceptance Criteria | " ++ toString a ++ " | 20 |",
      "| " ++ persona.emoji ++ " Persona Alignment | " ++ toString p ++ " | 20 |",
      "| **" ++ badgeOf total ++ "** | **" ++ toString total ++ "** | **100** |" ]

/-- `scoreVibe` of `src/scoring.ts`.  `scan` is the outcome of the awaited
`scanProjectFiles(projectRoot)` call and `config` the result of
`loadConfig(projectRoot)` (both only consulted when the root is truthy,
mirroring `projectRoot ? loadConfig(projectRoot) : {}`).  Each sub-score is
independently clamped (`Math.min`) before `total` sums the four. -/
def scoreVibe (prompt : String) (personaKey : Option String)
    (projectRoot : Option String) (scan : Except Unit (List String))
    (config : VibeCheckConfig) : VibeScore :=
  let cfg := if truthyRoot projectRoot then config else {}
  let persona := resolvePersona' cfg personaKey
  let specificity := min 30 (specificityRaw prompt)
  let contextAvailability :=
    min 30 (contextFileTier projectRoot scan prompt + contextPromptRaw prompt)
  let acceptanceCriteria := min 20 (acceptanceRaw prompt)
  let personaAlignment := min 20 (alignmentRaw persona prompt)
  let total := specificity + contextAvailability + acceptanceCriteria + personaAlignment
  { total := total, specificity := specificity,
    contextAvailability := contextAvailability,
    acceptanceCriteria := acceptanceCriteria,
    personaAlignment := personaAlignment,
    breakdown := breakdownOf persona specificity contextAvailability
      acceptanceCriteria personaAlignment total }

/-! ## `src/index.ts` (v1.4.0 snapshot) — Tech stack, refinement, handlers

The v1.4.0 server file carries its own synchronous copies of the config,
persona, security, scanner and scoring code whose semantics coincide with
the modular files embedded above, so those embeddings are reused here.  The
pieces unique to `index.ts` — the substring-based `extractMentionedLibraries`,
the non-rotating `logHistory`, `refinePrompt` and the tool handlers — are
embedded in this namespace.  Filesystem access of one request is captured by
`Env`: the loaded config, the tech-stack probe result
(an external-collaborator boundary, carried as `Option TechStack`), and the
outcomes of the two `scanProjectFiles` call sites (`scanProjectFiles(root)`
inside `scoreVibe` and `scanProjectFiles(root, config)` in the composers;
`.error` is a thrown error that the source catches). -/

namespace Index

/-- The `TechStack` interface; the dependency records are association lists
in property order. -/
structure TechStack where
  runtime : String
  frameworks : List String
  dependencies : List (String × String)
  devDependencies : List (String × String)
  source : String

/-- Result shape of `checkDependency`. -/
structure DepResult where
  found : Bool
  version : Option String
  isDev : Bool

/-- `checkDependency`: case-insensitive exact-name lookup, production
dependencies first, then development dependencies. -/
def checkDependency (lib : String) (ts : TechStack) : DepResult :=
  let ln := toLowerStr lib
  match ts.dependencies.find? (fun d => toLowerStr d.1 = ln) with
  | some dv => ⟨true, some dv.2, false⟩
  | none =>
    match ts.devDependencies.find? (fun d => toLowerStr d.1 = ln) with
    | some dv => ⟨true, some dv.2, true⟩
    | none => ⟨false, none, false⟩

/-- The `known` list of the v1.4.0 `extractMentionedLibraries` (note `next`
in place of the later `next.js`/`nextjs` pair). -/
def knownLibrariesV14 : List String :=
  [ "react", "vue", "angular", "svelte", "next", "nuxt", "express",
    "fastify", "nestjs", "electron", "typescript", "zod", "prisma",
    "drizzle", "tailwind", "tailwindcss", "sass", "webpack", "vite",
    "rollup", "jest", "vitest", "mocha", "cypress", "playwright",
    "django", "flask", "fastapi", "pytorch", "tensorflow", "pandas",
    "numpy", "redis", "mongodb", "postgres", "mysql", "sqlite",
    "docker", "kubernetes", "graphql", "apollo", "trpc" ]

/-- The v1.4.0 `extractMentionedLibraries`: plain substring containment
(`lp.includes(lib)`) against the lower-cased prompt — no word boundaries. -/
def extractMentionedLibraries (prompt : String) : List String :=
  knownLibrariesV14.filter (fun lib => containsSub lib (lowerL prompt))

/-- `REFINEMENT_PRINCIPLES` of `src/index.ts`. -/
def REFINEMENT_PRINCIPLES : List String :=
  [ "1. **SPECIFICITY** — State exactly what you want built, modified, or fixed.",
    "2. **CONTEXT** — Include relevant code snippets, error messages, or constraints.",
    "3. **CONSTRAINTS** — Specify language, framework version, style guide, or perf requirements.",
    "4. **ACCEPTANCE CRITERIA** — Define what \x27done\x27 looks like.",
    "5. **SCOPE CONTROL** — Explicitly state what should NOT be changed.",
    "6. **STRUCTURE** — Break complex tasks into numbered sub-tasks." ]

/-- The filesystem/config environment observed by one request. -/
structure Env where
  config : VibeCheckConfig
  techStack : Option TechStack
  scanDefault : Except Unit (List String)
  scanConfigured : Except Unit (List String)

/-- JavaScript `o || d` for an optional string (`projectRoot || process.cwd()`,
`persona || "Default"`): `undefined` and the empty string fall back. -/
def jsOrStr (o : Option String) (d : String) : String :=
  match o with
  | some s => if s = "" then d else s
  | none => d

/-- The v1.4.0 `logHistory` state transition: plain append, no rotation. -/
def logHistory (history : List HistoryEntry) (entry : HistoryEntry) :
    List HistoryEntry :=
  history ++ [entry]

/-- `refinePrompt` of `src/index.ts`: assembles the sectioned markdown
report (header, security alert, score breakdown, persona constraints, coding
standards, tech stack + dependency check + recommended context when a root
is given, quality issues, original prompt, refined instruction) and joins
the sections with newlines. -/
def refinePrompt (rawPrompt : String) (projectRoot : Option String)
    (personaKey : Option String) (env : Env) : String :=
  let config := if truthyRoot projectRoot then env.config else {}
  let persona := resolvePersona' config personaKey
  let secFlags := securityCheck rawPrompt
  let score := scoreVibe rawPrompt personaKey projectRoot env.scanDefault env.config
  let sections : List String :=
    [ "# 🎯 VibeCheck — Refined Prompt\n",
      "> *v1.4.0 | " ++ persona.emoji ++ " " ++ persona.name ++
        " | Vibe Score: **" ++ toString score.total ++ "/100***\n" ] ++
    (if secFlags.length ≠ 0 then
      [ "## 🔒 Security Alert\n",
        "> **WARNING:** Potentially dangerous instructions detected.\n" ] ++
      secFlags.map (fun f => "- " ++ f) ++
      [ "\n> Review and ensure these are intentional.\n" ]
     else []) ++
    [ "## 📊 Vibe Score\n", score.breakdown, "" ] ++
    [ "## " ++ persona.emoji ++ " Expert Constraints (" ++ persona.name ++ ")\n",
      "*" ++ persona.description ++ "*\n" ] ++
    persona.expertConstraints.mapIdx (fun i c => toString (i + 1) ++ ". " ++ c) ++
    [ "" ] ++
    [ "## 📋 Coding Standards\n", String.intercalate "\n" REFINEMENT_PRINCIPLES, "" ] ++
    (if truthyRoot projectRoot then
      (match env.techStack with
       | some ts =>
         [ "## 🔧 Tech Stack\n",
           "| Property | Value |\n|----------|-------|",
           "| **Runtime** | " ++ ts.runtime ++ " |" ] ++
         (if ts.frameworks.length ≠ 0 then
           [ "| **Frameworks** | " ++ String.intercalate ", " ts.frameworks ++ " |" ]
          else []) ++
         [ "" ] ++
         (let mentioned := extractMentionedLibraries rawPrompt
          if mentioned.length ≠ 0 then
            "## 📦 Dependency Check\n" ::
            mentioned.map (fun lib =>
              let r := checkDependency lib ts
              if r.found then
                "- ✅ **" ++ lib ++ "** v" ++ r.version.getD "null" ++
                  (if r.isDev then " *(dev)*" else "")
              else "- ❌ **" ++ lib ++ "** — **NOT installed**") ++
            [ "" ]
          else [])
       | none => []) ++
      (match env.scanConfigured with
       | .ok files =>
         let sc := suggestContext rawPrompt files
         if sc.matched.length ≠ 0 then
           [ "## 📂 Recommended Context\n",
             "*Keywords: " ++
               String.intercalate ", " (sc.keywords.map (fun k => "`" ++ k ++ "`")) ++
               "*\n" ] ++
           sc.matched.map (fun f => "- `" ++ f ++ "`") ++ [ "" ]
         else []
       | .error _ => [])
     else []) ++
    (let issues : List String :=
      (if rawPrompt.length < 50 then [ "⚠️ **Too Short**" ] else []) ++
      (if !fileExtTest rawPrompt then [ "⚠️ **No File References**" ] else []) ++
      (if !criteriaTest rawPrompt then [ "⚠️ **No Acceptance Criteria**" ] else [])
     if issues.length ≠ 0 then
       [ "## ⚠️ Quality Issues\n", String.intercalate "\n" issues, "" ]
     else []) ++
    [ "## 📝 Original Prompt\n", "```\n" ++ rawPrompt ++ "\n```\n" ] ++
    [ "## ✨ Refined Instruction\n",
      rawPrompt ++ "\n\n" ++
      "**📌 Checklist:**\n" ++
      "- [ ] Target files identified\n" ++
      "- [ ] Expected behavior defined\n" ++
      "- [ ] Constraints specified\n" ++
      "- [ ] Scope boundaries set" ]
  String.intercalate "\n" sections

/-- The `refine_vibe_prompt` tool handler: append the optional context to
the prompt, default the root to the cwd, refine, score, log exactly one
history entry, and return the refined text.  The pair is
(response text, history store after the call). -/
def refine_vibe_prompt_handler (prompt : String) (context : Option String)
    (projectRoot : Option String) (persona : Option String) (cwd now : String)
    (env : Env) (st : List HistoryEntry) : String × List HistoryEntry :=
  let inputPrompt :=
    match context with
    | some c => if c = "" then prompt
                else prompt ++ "\n\n### Additional Context\n" ++ c
    | none => prompt
  let root := jsOrStr projectRoot cwd
  let refined := refinePrompt inputPrompt (some root) persona env
  let score := scoreVibe inputPrompt persona (some root) env.scanDefault env.config
  (refined,
   logHistory st
     { timestamp := now, persona := jsOrStr persona "Default",
       rawPrompt := inputPrompt, refinedPrompt := refined,
       vibeScore := score.total, securityFlags := securityCheck inputPrompt })

/-- The `score_vibe` tool handler: score, report, and leave the history
store untouched (a pure read). -/
def score_vibe_handler (prompt : String) (persona : Option String)
    (projectRoot : Option String) (cwd : String) (env : Env)
    (st : List HistoryEntry) : String × List HistoryEntry :=
  let root := jsOrStr projectRoot cwd
  let score := scoreVibe prompt persona (some root) env.scanDefault env.config
  let secFlags := securityCheck prompt
  let output :=
    "# 📊 Vibe Score Report\n\n" ++ score.breakdown ++ "\n" ++
    (if secFlags.length ≠ 0 then
      "\n## 🔒 Security Flags\n\n" ++
      String.join (secFlags.map (fun f => "- " ++ f ++ "\n"))
     else "") ++
    "\n## 💡 Tips\n\n" ++
    (if score.specificity < 20 then
      "- Add file paths, function names, line references.\n" else "") ++
    (if score.contextAvailability < 20 then
      "- Include code snippets or error messages.\n" else "") ++
    (if score.acceptanceCriteria < 15 then
      "- Define expected output or test cases.\n" else "") ++
    (if score.personaAlignment < 10 then
      "- Align with your selected persona\x27s concerns.\n" else "")
  (output, st)

set_option linter.unusedVariables false in
/-- The `refinement_loop` tool handler: re-score `original + feedback`,
assemble the V2 report, and log exactly one history entry tagged `[V2]`
(`refined_prompt` is accepted but, as in the source, never read). -/
def refinement_loop_handler (original_prompt refined_prompt feedback : String)
    (persona : Option String) (projectRoot : Option String) (cwd now : String)
    (env : Env) (st : List HistoryEntry) : String × List HistoryEntry :=
  let root := jsOrStr projectRoot cwd
  let config := env.config
  let personaObj := resolvePersona' config persona
  let combined := original_prompt ++ "\n\n" ++ feedback
  let score := scoreVibe combined persona (some root) env.scanDefault env.config
  let v2 :=
    "# 🔄 Refined Prompt — Version 2\n\n" ++
    "> *Persona: " ++ personaObj.emoji ++ " " ++ personaObj.name ++
      " | Vibe Score: **" ++ toString score.total ++ "/100***\n\n" ++
    "## 💬 Feedback Applied\n\n> " ++ feedback ++ "\n\n" ++
    "## ✨ Improved Instruction\n\n" ++ original_prompt ++
      "\n\n### Adjustments\n\n" ++ feedback ++ "\n\n" ++
    "### " ++ personaObj.emoji ++ " Expert Constraints\n\n" ++
    String.join (personaObj.expertConstraints.mapIdx
      (fun i c => toString (i + 1) ++ ". " ++ c ++ "\n")) ++
    "\n## 📊 Updated Vibe Score\n\n" ++ score.breakdown
  let v2' := v2 ++
    (match env.scanConfigured with
     | .ok files =>
       let sc := suggestContext combined files
       if sc.matched.length ≠ 0 then
         "\n\n## 📂 Updated Context\n\n*Keywords: " ++
         String.intercalate ", " (sc.keywords.map (fun k => "`" ++ k ++ "`")) ++
         "*\n\n" ++
         String.join (sc.matched.map (fun f => "- `" ++ f ++ "`\n"))
       else ""
     | .error _ => "")
  (v2',
   logHistory st
     { timestamp := now, persona := jsOrStr persona "Default",
       rawPrompt := "[V2] " ++ original_prompt, refinedPrompt := v2',
       vibeScore := score.total, securityFlags := securityCheck combined })

end Index

end VC

/-! ## Claim theorems -/

/-- C1: for every prompt, persona key, project root, scan outcome and
configuration, the `VibeScore` returned by `scoreVibe` has `specificity` in
`[0,30]`, `contextAvailability` in `[0,30]`, `acceptanceCriteria` in
`[0,20]`, `personaAlignment` in `[0,20]` (each independently clamped before
summing), and `total` is exactly the sum of the four already-clamped
sub-scores, hence lies in `[0,100]` with no separate re-clamping (the lower
bounds hold since the scores are naturals). -/
theorem C1_vibescore_bounds (prompt : String) (personaKey projectRoot : Option String)
    (scan : Except Unit (List String)) (config : VC.VibeCheckConfig) :
    (VC.scoreVibe prompt personaKey projectRoot scan config).specificity ≤ 30 ∧
    (VC.scoreVibe prompt personaKey projectRoot scan config).contextAvailability ≤ 30 ∧
    (VC.scoreVibe prompt personaKey projectRoot scan config).acceptanceCriteria ≤ 20 ∧
    (VC.scoreVibe prompt personaKey projectRoot scan config).personaAlignment ≤ 20 ∧
    (VC.scoreVibe prompt personaKey projectRoot scan config).total =
      (VC.scoreVibe prompt personaKey projectRoot scan config).specificity +
      (VC.scoreVibe prompt personaKey projectRoot scan config).contextAvailability +
      (VC.scoreVibe prompt personaKey projectRoot scan config).acceptanceCriteria +
      (VC.scoreVibe prompt personaKey projectRoot scan config).personaAlignment ∧
    (VC.scoreVibe prompt personaKey projectRoot scan config).total ≤ 100 := by
  simp only [VC.scoreVibe]
  refine ⟨?_, ?_, ?_, ?_, trivial, ?_⟩ <;> omega

/-- C7: `scoreVibe` is a total function of its inputs (it always returns a
`VibeScore`); a thrown filesystem scan (`scan = .error`) is equivalent to a
scan that matched nothing, i.e. it only zeroes the file-match tier, and the
other three sub-scores do not depend on the scan outcome at all. -/
theorem C7_scoreVibe_scan_error_degrades_only_context
    (prompt : String) (personaKey projectRoot : Option String)
    (config : VC.VibeCheckConfig) (scan scan' : Except Unit (List String)) :
    VC.scoreVibe prompt personaKey projectRoot (.error ()) config =
      VC.scoreVibe prompt personaKey projectRoot (.ok []) config ∧
    (VC.scoreVibe prompt personaKey projectRoot (.error ()) config).contextAvailability =
      min 30 (VC.contextPromptRaw prompt) ∧
    (VC.scoreVibe prompt personaKey projectRoot scan config).specificity =
      (VC.scoreVibe prompt personaKey projectRoot scan' config).specificity ∧
    (VC.scoreVibe prompt personaKey projectRoot scan config).acceptanceCriteria =
      (VC.scoreVibe prompt personaKey projectRoot scan' config).acceptanceCriteria ∧
    (VC.scoreVibe prompt personaKey projectRoot scan config).personaAlignment =
      (VC.scoreVibe prompt personaKey projectRoot scan' config).personaAlignment := by
  have hok : VC.contextFileTier projectRoot (.ok []) prompt = 0 := by
    simp [VC.contextFileTier, VC.suggestContext, VC.rankedPairs, VC.scoredPairs]
  have herr : VC.contextFileTier projectRoot (.error ()) prompt = 0 := by
    simp [VC.contextFileTier]
  refine ⟨?_, ?_, rfl, rfl, rfl⟩
  · simp [VC.scoreVibe, hok, herr]
  · simp [VC.scoreVibe, herr]

/-- C10: `resolvePersona` treats the empty-string persona key exactly like
an absent key — both are replaced by the key `"default"` before lookup — so
they resolve to the same persona for every configuration. -/
theorem C10_empty_key_is_default (config : VC.VibeCheckConfig) :
    VC.resolvePersona config (some "") = VC.resolvePersona config none ∧
    VC.effectiveKey (some "") = "default" := by
  constructor
  · rfl
  · rfl

/-- C3: `securityCheck` returns exactly the flag labels of the catalog rules
whose pattern matches the text, in catalog order (its output is a sublist of
the catalog's flag list, and a flag is present iff some rule with that flag
matches); it is a pure function, so there are no side effects.  The literal
text "disable authentication" yields exactly the auth-disable flag, and the
neutral settings-page text yields the empty list (a valid result). -/
theorem C3_securityCheck_catalog (t : String) :
    List.Sublist (VC.securityCheck t) (VC.SECURITY_PATTERNS.map (·.flag)) ∧
    (∀ f, f ∈ VC.securityCheck t ↔
      ∃ r ∈ VC.SECURITY_PATTERNS, r.test t = true ∧ r.flag = f) ∧
    VC.securityCheck "disable authentication" =
      ["🚨 Attempts to disable authentication/authorization"] ∧
    VC.securityCheck "add a dark mode toggle to the settings page" = [] := by
  refine ⟨(List.filter_sublist _).map _, ?_, by decide, by decide⟩
  intro f
  simp [VC.securityCheck, List.mem_filter, and_assoc]

/-- If a key is bound in the record, it stays bound after the record
assignment `m[k] = v` of `recordSet`. -/
theorem recordSet_lookup_isSome (m : List (String × VC.Persona)) (k d : String)
    (v : VC.Persona) (h : (m.lookup d).isSome) :
    ((VC.recordSet m k v).lookup d).isSome := by
  rw [List.lookup_isSome_iff] at h ⊢
  obtain ⟨p, hp, hd⟩ := h
  unfold VC.recordSet
  split
  · exact ⟨if p.1 = k then (k, v) else p, List.mem_map_of_mem _ hp,
      by split <;> simp_all⟩
  · exact ⟨p, List.mem_append_left _ hp, hd⟩

/-- The `"default"` key is always bound in the merged persona table: custom
personas can override it but never remove it. -/
theorem getPersonas_default_isSome (config : VC.VibeCheckConfig) :
    ((VC.getPersonas config).lookup "default").isSome := by
  unfold VC.getPersonas
  have hbase : ((VC.BUILTIN_PERSONAS).lookup "default").isSome := by decide
  cases hc : config.customPersonas with
  | none => exact hbase
  | some custom =>
    suffices h : ∀ (cs : List (String × VC.Persona)) (m : List (String × VC.Persona)),
        (m.lookup "default").isSome →
        ((cs.foldl (fun m kv => VC.recordSet m (VC.toLowerStr kv.1) kv.2) m).lookup
          "default").isSome by
      exact h custom VC.BUILTIN_PERSONAS hbase
    intro cs
    induction cs with
    | nil => intro m hm; simpa using hm
    | cons kv rest ih =>
      intro m hm
      exact ih _ (recordSet_lookup_isSome m (VC.toLowerStr kv.1) "default" kv.2 hm)

/-- C5: persona resolution is case-insensitive (two keys with the same
lower-casing resolve identically — in particular any mixed capitalization
resolves like the canonical lower-case key); a key that is not bound in the
merged table resolves to the table's `"default"` persona, as does an absent
key; the `"default"` key is always bound, so resolution always produces a
persona (it can never be removed by configuration).  Concretely, the
security persona's name in mixed case resolves to the security auditor, and
an unknown key resolves to the built-in default. -/
theorem C5_resolvePersona_case_insensitive_default
    (config : VC.VibeCheckConfig) (k₁ k₂ u : String) :
    (VC.toLowerStr k₁ = VC.toLowerStr k₂ →
      VC.resolvePersona config (some k₁) = VC.resolvePersona config (some k₂)) ∧
    (((VC.getPersonas config).lookup (VC.effectiveKey (some u))).isNone →
      VC.resolvePersona config (some u) = (VC.getPersonas config).lookup "default") ∧
    VC.resolvePersona config none = (VC.getPersonas config).lookup "default" ∧
    ((VC.getPersonas config).lookup "default").isSome ∧
    (VC.resolvePersona config (some u)).isSome ∧
    VC.resolvePersona {} (some "SeCuRiTy AuDiToR") = some VC.personaSecurityAuditor ∧
    VC.resolvePersona {} (some "astronaut") = some VC.personaDefault := by
  have hdef := getPersonas_default_isSome config
  refine ⟨?_, ?_, ?_, hdef, ?_, by decide, by decide⟩
  · intro h
    simp [VC.resolvePersona, VC.recordGet, VC.effectiveKey, h]
  · intro h
    rw [Option.isNone_iff_eq_none] at h
    simp [VC.resolvePersona, VC.recordGet, h]
  · cases hl : (VC.getPersonas config).lookup "default" with
    | none => simp [VC.resolvePersona, VC.recordGet, VC.effectiveKey, hl]
    | some p => simp [VC.resolvePersona, VC.recordGet, VC.effectiveKey, hl]
  · cases hl : (VC.getPersonas config).lookup (VC.effectiveKey (some u)) with
    | none => simpa [VC.resolvePersona, VC.recordGet, hl] using hdef
    | some p => simp [VC.resolvePersona, VC.recordGet, hl]

/-- A sample history entry used for the concrete rotation scenario. -/
def sampleEntry (i : Nat) : VC.HistoryEntry :=
  { timestamp := toString i, persona := "Default", rawPrompt := "p",
    refinedPrompt := "r", vibeScore := i, securityFlags := [] }

/-- `n` distinct sample entries in append order. -/
def sampleEntries (n : Nat) : List VC.HistoryEntry :=
  (List.range n).map sampleEntry

/-- One rotating append in closed form: push, then drop the overflow. -/
theorem logHistory_eq_drop (h : List VC.HistoryEntry) (e : VC.HistoryEntry) :
    VC.logHistory h e =
      (h ++ [e]).drop (h.length + 1 - VC.MAX_HISTORY_ENTRIES) := by
  unfold VC.logHistory
  by_cases hc : VC.MAX_HISTORY_ENTRIES < (h ++ [e]).length
  · rw [if_pos hc]
    simp
  · rw [if_neg hc]
    simp only [List.length_append, List.length_cons, List.length_nil,
      Nat.zero_add, Nat.not_lt] at hc
    rw [Nat.sub_eq_zero_of_le hc, List.drop_zero]

/-- Folding the rotating `logHistory` over a batch of appends keeps exactly
the suffix that fits in the 200-entry cap. -/
theorem foldl_logHistory (es : List VC.HistoryEntry) :
    ∀ h : List VC.HistoryEntry, h.length ≤ VC.MAX_HISTORY_ENTRIES →
      es.foldl VC.logHistory h =
        (h ++ es).drop (h.length + es.length - VC.MAX_HISTORY_ENTRIES) := by
  induction es with
  | nil =>
    intro h hh
    simp only [List.foldl_nil, List.append_nil, List.length_nil, Nat.add_zero]
    rw [Nat.sub_eq_zero_of_le hh, List.drop_zero]
  | cons e es ih =>
    intro h hh
    rw [List.foldl_cons, logHistory_eq_drop,
      ih _ (by
        simp only [List.length_drop, List.length_append, List.length_cons,
          List.length_nil]
        omega),
      ← List.drop_append_of_le_length (by
        simp only [List.length_append, List.length_cons, List.length_nil]
        omega),
      List.drop_drop]
    have hl : (h ++ [e]) ++ es = h ++ e :: es := by
      rw [List.append_assoc, List.singleton_append]
    rw [hl]
    have hidx :
        h.length + 1 - VC.MAX_HISTORY_ENTRIES +
            (((h ++ [e]).drop (h.length + 1 - VC.MAX_HISTORY_ENTRIES)).length +
              es.length - VC.MAX_HISTORY_ENTRIES) =
          h.length + (e :: es).length - VC.MAX_HISTORY_ENTRIES := by
      simp only [List.length_drop, List.length_append, List.length_cons,
        List.length_nil]
      omega
    rw [hidx]

/-- C6: the rotating history store retains at most 200 entries with the
oldest evicted first: folding any batch of appends over the empty store
leaves exactly the batch's most recent 200 entries in append order, the
store size never exceeds 200, and the concrete 205-append scenario keeps
exactly the last 200 entries (the oldest 5 evicted, order preserved). -/
theorem C6_history_rotation :
    (∀ es : List VC.HistoryEntry,
      es.foldl VC.logHistory [] = es.drop (es.length - 200)) ∧
    (∀ (es h : List VC.HistoryEntry), h.length ≤ 200 →
      (es.foldl VC.logHistory h).length ≤ 200) ∧
    (sampleEntries 205).foldl VC.logHistory [] = (sampleEntries 205).drop 5 ∧
    ((sampleEntries 205).foldl VC.logHistory []).length = 200 := by
  have hempty : ∀ es : List VC.HistoryEntry,
      es.foldl VC.logHistory [] = es.drop (es.length - 200) := by
    intro es
    simpa using foldl_logHistory es [] (by simp [VC.MAX_HISTORY_ENTRIES])
  have hlen205 : (sampleEntries 205).length = 205 := by simp [sampleEntries]
  refine ⟨hempty, ?_, ?_, ?_⟩
  · intro es h hh
    rw [foldl_logHistory es h (by simpa [VC.MAX_HISTORY_ENTRIES] using hh)]
    simp [VC.MAX_HISTORY_ENTRIES]
    omega
  · rw [hempty, hlen205]
  · rw [hempty, hlen205]
    simp [hlen205]

/-- C9: a configured `maxScanFiles`/`maxScanDepth` of `0` is falsy, so
`scanProjectFiles` silently substitutes the built-in defaults (500 files,
depth 10) exactly as for an absent key — the two configurations scan
identically — and consequently a zero-file or zero-depth scan cannot be
configured: with both limits set to `0` the scanner still returns files,
including files below the root. -/
theorem C9_zero_limits_fall_back_to_defaults :
    (∀ (igD igE : Option (List String))
       (cps : Option (List (String × VC.Persona))) (t : List VC.FSEntry),
      VC.scanProjectFiles t ⟨igD, igE, cps, some 0, some 0⟩ =
        VC.scanProjectFiles t ⟨igD, igE, cps, none, none⟩) ∧
    VC.jsOrNat (some 0) 500 = 500 ∧ VC.jsOrNat (some 0) 10 = 10 ∧
    VC.scanProjectFiles [VC.FSEntry.file "a.ts"]
      { maxScanFiles := some 0, maxScanDepth := some 0 } = ["a.ts"] ∧
    VC.scanProjectFiles [VC.FSEntry.dir "src" [VC.FSEntry.file "b.ts"]]
      { maxScanDepth := some 0 } = ["src/b.ts"] := by
  refine ⟨fun igD igE cps t => rfl, rfl, rfl, ?_, ?_⟩ <;>
    simp +decide [VC.scanProjectFiles, VC.walkEntries, VC.jsOrNat, VC.extname,
      VC.lastDotSuffix, VC.DEFAULT_IGNORED_DIRS, VC.DEFAULT_IGNORED_EXTS,
      VC.toLowerStr, VC.lowerL, VC.litAt]

/-- C8: the `score_vibe` tool handler is a pure read — it returns the
history store unchanged — while every invocation of the `refine_vibe_prompt`
and `refinement_loop` handlers appends exactly one `HistoryEntry` to the
store. -/
theorem C8_score_pure_refine_appends_one
    (prompt original_prompt refined_prompt feedback cwd now : String)
    (context persona projectRoot : Option String) (env : VC.Index.Env)
    (st : List VC.HistoryEntry) :
    (VC.Index.score_vibe_handler prompt persona projectRoot cwd env st).2 = st ∧
    (∃ e, (VC.Index.refine_vibe_prompt_handler prompt context projectRoot
        persona cwd now env st).2 = st ++ [e]) ∧
    (∃ e, (VC.Index.refinement_loop_handler original_prompt refined_prompt
        feedback persona projectRoot cwd now env st).2 = st ++ [e]) :=
  ⟨rfl, ⟨_, rfl⟩, ⟨_, rfl⟩⟩

/-- The right-edge condition of the mention regex, as a proposition: the
remainder is empty (end of string) or starts with a right delimiter. -/
def endOkP (post : List Char) : Prop :=
  post = [] ∨ ∃ c post', post = c :: post' ∧ VC.rightDelim c = true

theorem endOk_iff (post : List Char) : VC.endOk post = true ↔ endOkP post := by
  cases post <;> simp [VC.endOk, endOkP]

theorem prefixAt_iff (lib : String) (l : List Char) :
    (lib.toList.isPrefixOf l && VC.endOk (l.drop lib.length)) = true ↔
      ∃ post, l = lib.toList ++ post ∧ endOkP post := by
  rw [Bool.and_eq_true]
  constructor
  · rintro ⟨hpre, hend⟩
    obtain ⟨post, rfl⟩ := (List.isPrefixOf_iff_prefix.mp hpre)
    refine ⟨post, rfl, ?_⟩
    rw [← endOk_iff]
    have hdrop : (lib.toList ++ post).drop lib.length = post := List.drop_left _ _
    rwa [hdrop] at hend
  · rintro ⟨post, rfl, hend⟩
    refine ⟨List.isPrefixOf_iff_prefix.mpr ⟨post, rfl⟩, ?_⟩
    have hdrop : (lib.toList ++ post).drop lib.length = post := List.drop_left _ _
    rw [hdrop, endOk_iff]
    exact hend

theorem boundaryAux_iff (lib : String) (l : List Char) :
    VC.boundaryAux lib l = true ↔
      ∃ pre c post, l = pre ++ c :: (lib.toList ++ post) ∧
        VC.leftDelim c = true ∧ endOkP post := by
  induction l with
  | nil =>
    constructor
    · intro h
      simp [VC.boundaryAux] at h
    · rintro ⟨pre, c, post, heq, -, -⟩
      cases pre <;> simp at heq
  | cons a rest ih =>
    simp only [VC.boundaryAux, Bool.or_eq_true, Bool.and_eq_true, ih]
    constructor
    · rintro (⟨⟨hdelim, hpre⟩, hend⟩ | ⟨pre, c, post, rfl, hc, hpost⟩)
      · obtain ⟨post, rfl, hpost⟩ :=
          (prefixAt_iff lib rest).mp (by rw [Bool.and_eq_true]; exact ⟨hpre, hend⟩)
        exact ⟨[], a, post, rfl, hdelim, hpost⟩
      · exact ⟨a :: pre, c, post, rfl, hc, hpost⟩
    · rintro ⟨pre, c, post, heq, hc, hpost⟩
      cases pre with
      | nil =>
        simp only [List.nil_append] at heq
        obtain ⟨rfl, rfl⟩ := List.cons.injEq .. ▸ heq
        have := (prefixAt_iff lib (lib.toList ++ post)).mpr ⟨post, rfl, hpost⟩
        rw [Bool.and_eq_true] at this
        exact Or.inl ⟨⟨hc, this.1⟩, this.2⟩
      | cons a' pre' =>
        simp only [List.cons_append, List.cons.injEq] at heq
        obtain ⟨rfl, rfl⟩ := heq
        exact Or.inr ⟨pre', c, post, rfl, hc, hpost⟩

/-- C4: the detection regex of `extractMentionedLibraries` is word-boundary
aware — the boolean scanner `boundaryTest` accepts exactly the strings that
decompose as `pre ++ lib ++ post` where `pre` is empty or ends in a left
delimiter and `post` is empty or starts with a right delimiter — a library
is reported iff it is known and its boundary regex matches the lower-cased
prompt; concretely, "nextjs" flanked by a space and a comma is detected,
while a prompt containing "react" only inside the word "reactive" yields no
mentions at all. -/
theorem C4_word_boundary_mentions (lib prompt : String) (l : List Char) :
    (VC.boundaryTest lib l = true ↔
      ∃ pre post, l = pre ++ lib.toList ++ post ∧
        (pre = [] ∨ ∃ c pre', pre = pre' ++ [c] ∧ VC.leftDelim c = true) ∧
        endOkP post) ∧
    (lib ∈ VC.extractMentionedLibraries prompt ↔
      lib ∈ VC.knownLibraries ∧ VC.boundaryTest lib (VC.lowerL prompt) = true) ∧
    "nextjs" ∈ VC.extractMentionedLibraries "migrate my app to nextjs, please" ∧
    VC.extractMentionedLibraries "make the ui more reactive please" = [] := by
  refine ⟨?_, ?_, by decide, by decide⟩
  · unfold VC.boundaryTest
    rw [Bool.or_eq_true, prefixAt_iff, boundaryAux_iff]
    constructor
    · rintro (⟨post, rfl, hpost⟩ | ⟨pre, c, post, rfl, hc, hpost⟩)
      · exact ⟨[], post, rfl, Or.inl rfl, hpost⟩
      · exact ⟨pre ++ [c], post, by simp, Or.inr ⟨c, pre, rfl, hc⟩, hpost⟩
    · rintro ⟨pre, post, rfl, hpre | ⟨c, pre', rfl, hc⟩, hpost⟩
      · subst hpre
        exact Or.inl ⟨post, by simp, hpost⟩
      · exact Or.inr ⟨pre', c, post, by simp, hc, hpost⟩
  · simp [VC.extractMentionedLibraries, List.mem_filter]

/-- The per-keyword weight contributed to a file's score: `3` for a
basename match, else `1` for a full-path match, else `0`. -/
def keywordWeight (fp : String) (k : List Char) : Nat :=
  if VC.containsSub (String.mk k) (VC.lowerBasename fp) then 3
  else if VC.containsSub (String.mk k) (VC.lowerL fp) then 1 else 0

theorem fileScore_foldl_acc (fp : String) (ks : List (List Char)) :
    ∀ acc : Nat,
      ks.foldl (fun score k =>
        if VC.containsSub (String.mk k) (VC.lowerBasename fp) then score + 3
        else if VC.containsSub (String.mk k) (VC.lowerL fp) then score + 1
        else score) acc = acc + (ks.map (keywordWeight fp)).sum := by
  induction ks with
  | nil => intro acc; simp
  | cons k ks ih =>
    intro acc
    rw [List.foldl_cons, List.map_cons, List.sum_cons, ih]
    by_cases h₁ : VC.containsSub (String.mk k) (VC.lowerBasename fp) = true
    · simp only [keywordWeight, if_pos h₁]
      omega
    · by_cases h₂ : VC.containsSub (String.mk k) (VC.lowerL fp) = true
      · simp only [keywordWeight, if_neg h₁, if_pos h₂]
        omega
      · simp only [keywordWeight, if_neg h₁, if_neg h₂]
        omega

/-- `fileScore` is the sum of the per-keyword weights. -/
theorem fileScore_eq_sum (ks : List (List Char)) (fp : String) :
    VC.fileScore ks fp = (ks.map (keywordWeight fp)).sum := by
  unfold VC.fileScore
  rw [fileScore_foldl_acc]
  omega

/-- A candidate whose basename contains every keyword attains the maximal
per-keyword weight, so its score dominates every other candidate's. -/
theorem fileScore_basename_dominates (ks : List (List Char)) (f₁ f₂ : String)
    (h : ∀ k ∈ ks, VC.containsSub (String.mk k) (VC.lowerBasename f₁) = true) :
    VC.fileScore ks f₂ ≤ VC.fileScore ks f₁ := by
  rw [fileScore_eq_sum, fileScore_eq_sum]
  apply List.sum_le_sum
  intro k hk
  have h₁ : keywordWeight f₁ k = 3 := by
    unfold keywordWeight
    rw [if_pos (h k hk)]
  rw [h₁]
  unfold keywordWeight
  split
  · omega
  · split <;> omega

/-- Every ranked pair comes from the candidate list, carries its recomputed
score, and that score is positive. -/
theorem rankedPairs_mem (q : String) (fs : List String) (p : String × Nat)
    (hp : p ∈ VC.rankedPairs q fs) :
    p.1 ∈ fs ∧ p.2 = VC.fileScore (VC.extractKeywords q) p.1 ∧ 0 < p.2 := by
  unfold VC.rankedPairs at hp
  rw [List.mem_insertionSort, List.mem_filter] at hp
  obtain ⟨hmem, hpos⟩ := hp
  unfold VC.scoredPairs at hmem
  rw [List.mem_map] at hmem
  obtain ⟨fp, hfp, rfl⟩ := hmem
  exact ⟨hfp, rfl, by simpa using hpos⟩

/-- C2: `suggestContext` returns at most 15 files; an empty extracted
keyword set yields an empty result regardless of the candidate count; a
candidate whose basename contains all keywords scores at least as high as
any other candidate (in particular one matching the same keywords only
outside the basename); the returned list is ordered by non-increasing score;
the sort is stable — two candidates with equal positive scores keep their
original scan order in the full ranked list — and every returned file is a
candidate with positive score. -/
theorem C2_suggestContext_ranking (q : String) (fs : List String) :
    (VC.suggestContext q fs).matched.length ≤ 15 ∧
    ((VC.suggestContext q fs).keywords = [] →
      (VC.suggestContext q fs).matched = []) ∧
    (∀ f₁ f₂ : String,
      (∀ k ∈ VC.extractKeywords q,
        VC.containsSub (String.mk k) (VC.lowerBasename f₁) = true) →
      VC.fileScore (VC.extractKeywords q) f₂ ≤
        VC.fileScore (VC.extractKeywords q) f₁) ∧
    (VC.suggestContext q fs).matched.Pairwise
      (fun a b => VC.fileScore (VC.extractKeywords q) b ≤
        VC.fileScore (VC.extractKeywords q) a) ∧
    (∀ (f g : String) (s : Nat), 0 < s →
      List.Sublist [(f, s), (g, s)] (VC.scoredPairs q fs) →
      List.Sublist [f, g] ((VC.rankedPairs q fs).map (·.1))) ∧
    (∀ f ∈ (VC.suggestContext q fs).matched,
      f ∈ fs ∧ 0 < VC.fileScore (VC.extractKeywords q) f) := by
  refine ⟨?_, ?_, fun f₁ f₂ h => fileScore_basename_dominates _ f₁ f₂ h,
    ?_, ?_, ?_⟩
  · simp [VC.suggestContext]
  · intro hk
    have hkw : VC.extractKeywords q = [] := by
      simpa [VC.suggestContext] using hk
    have hfil : ((VC.scoredPairs q fs).filter (fun i => 0 < i.2)) = [] := by
      rw [List.filter_eq_nil_iff]
      intro p hp
      unfold VC.scoredPairs at hp
      rw [List.mem_map] at hp
      obtain ⟨fp, -, rfl⟩ := hp
      simp [hkw, VC.fileScore]
    simp [VC.suggestContext, VC.rankedPairs, hfil]
  · have hsorted : (VC.rankedPairs q fs).Pairwise VC.sortLe :=
      List.sorted_insertionSort VC.sortLe _
    have htake : ((VC.rankedPairs q fs).take 15).Pairwise VC.sortLe :=
      hsorted.sublist (List.take_sublist _ _)
    have hmemscore : ∀ p ∈ (VC.rankedPairs q fs).take 15,
        p.2 = VC.fileScore (VC.extractKeywords q) p.1 := by
      intro p hp
      exact (rankedPairs_mem q fs p ((List.take_sublist _ _).mem hp)).2.1
    show ((VC.rankedPairs q fs).take 15 |>.map (·.1)).Pairwise _
    rw [List.pairwise_map]
    refine htake.imp_of_mem ?_
    intro a b ha hb hle
    have hA := hmemscore a ha
    have hB := hmemscore b hb
    rw [← hA, ← hB]
    exact hle
  · intro f g s hs hsub
    have hfil := hsub.filter (fun i : String × Nat => decide (0 < i.2))
    have hcl : ([(f, s), (g, s)].filter (fun i : String × Nat => decide (0 < i.2)))
        = [(f, s), (g, s)] := by
      simp [hs]
    rw [hcl] at hfil
    have hpair : ([(f, s), (g, s)] : List (String × Nat)).Pairwise VC.sortLe := by
      simp [List.pairwise_pair, VC.sortLe]
    have hsorted := List.sublist_insertionSort (r := VC.sortLe) hpair hfil
    exact hsorted.map (·.1)
  · intro f hf
    simp only [VC.suggestContext, List.mem_map] at hf
    obtain ⟨p, hp, rfl⟩ := hf
    have := rankedPairs_mem q fs p ((List.take_sublist _ _).mem hp)
    exact ⟨this.1, this.2.1 ▸ this.2.2⟩

/-- Witness for C2: the hypotheses of the empty-keyword, basename-dominance
and stability parts are discharged at concrete inputs ("the" is a stop word,
so it extracts no keywords; "auth login" extracts two keywords both contained
in the basename `auth-login.ts`; two files scoring 3 on the keyword "alpha"
keep their scan order). -/
theorem C2_suggestContext_ranking_witness :
    (VC.suggestContext "the" ["a.ts"]).matched = [] ∧
    VC.fileScore (VC.extractKeywords "auth login") "docs/readme.md" ≤
      VC.fileScore (VC.extractKeywords "auth login") "src/auth-login.ts" ∧
    List.Sublist ["x/alpha.ts", "y/alpha.ts"]
      ((VC.rankedPairs "alpha" ["x/alpha.ts", "y/alpha.ts"]).map (·.1)) :=
  ⟨(C2_suggestContext_ranking "the" ["a.ts"]).2.1 (by decide),
   (C2_suggestContext_ranking "auth login" []).2.2.1
     "src/auth-login.ts" "docs/readme.md" (by decide),
   (C2_suggestContext_ranking "alpha" ["x/alpha.ts", "y/alpha.ts"]).2.2.2.2.1
     "x/alpha.ts" "y/alpha.ts" 3 (by decide) (by decide)⟩

/-- Witness for C5: the case-insensitivity and unknown-key hypotheses are
discharged at concrete keys (mixed-case vs. canonical security-auditor key;
the unknown key "astronaut" with the empty configuration). -/
theorem C5_resolvePersona_witness :
    VC.resolvePersona {} (some "SECURITY auditor") =
      VC.resolvePersona {} (some "Security Auditor") ∧
    VC.resolvePersona {} (some "astronaut") =
      (VC.getPersonas {}).lookup "default" :=
  ⟨(C5_resolvePersona_case_insensitive_default {} "SECURITY auditor"
      "Security Auditor" "x").1 (by decide),
   (C5_resolvePersona_case_insensitive_default {} "a" "a" "astronaut").2.1
     (by decide)⟩

/-- Witness for C6: the boundedness part applied to a concrete batch over
the empty store. -/
theorem C6_history_rotation_witness :
    ((sampleEntries 3).foldl VC.logHistory []).length ≤ 200 :=
  C6_history_rotation.2.1 (sampleEntries 3) [] (by decide)
